import Mathlib

/-!
Verification development for the esp32 IoT firmware (jakubpolski/iiot).

The firmware is shallowly embedded: the pure decision logic of each source
function is translated into an executable Lean definition, hardware and
transport effects are supplied through explicit oracles, and Rust fallibility
(panics, unwraps) is modelled with Option.  Rust u8 arithmetic is modelled the
way the language defines the plain + operator: the sum exists only when it
fits in a byte, and an overflowing addition is an arithmetic-overflow error
(a panic whenever overflow checks are compiled in), so it is embedded as a
checked, Option-valued addition.
-/

deriving instance DecidableEq for Except

namespace IIot

/-- Errors returned by the DHT11 driver, from src/esp32/src/dht11.rs. -/
inductive DhtError where
  | noResponse
  | invalidResponse
  | checksumMismatch
  deriving DecidableEq

/-- A 5-byte frame shifted in from the sensor into the driver buffer
(DHT_BUFFER_SIZE = 5 in dht11.rs); each field holds one byte as read. -/
structure DhtFrame where
  b0 : Nat
  b1 : Nat
  b2 : Nat
  b3 : Nat
  b4 : Nat
  deriving DecidableEq

/-- Rust u8 addition as written in the source (a plain + with no wrapping
annotation): the result exists only when the sum fits in a byte; an
overflowing addition is an arithmetic-overflow error, modelled as none. -/
def u8add (a b : Nat) : Option Nat :=
  if a + b ≤ 255 then some (a + b) else none

/-- The checksum sum computed on dht11.rs line 80:
buffer[0] + buffer[1] + buffer[2] + buffer[3], each + a Rust u8 addition. -/
def dhtChecksumSum (f : DhtFrame) : Option Nat :=
  (u8add f.b0 f.b1).bind fun s01 =>
    (u8add s01 f.b2).bind fun s02 =>
      u8add s02 f.b3

/-- The checksum-validation stage of Dht11::read (dht11.rs lines 77-88),
applied to the frame shifted into the buffer by the bit-banging stage.
A none result models the panic of the overflowing checksum addition; some
carries the value Dht11::read returns: Ok((buffer[2], buffer[0])) on a
checksum match, Err(ChecksumMismatch) otherwise. -/
def dhtRead (f : DhtFrame) : Option (Except DhtError (Nat × Nat)) :=
  (dhtChecksumSum f).map fun s =>
    if f.b4 ≠ s then Except.error DhtError.checksumMismatch
    else Except.ok (f.b2, f.b0)

/-- The 8-bit-wrapped checksum named by the specification: the sum of bytes
0 through 3 reduced modulo 256.  This definition follows the words of the
spec and is compared against the source-derived dhtChecksumSum. -/
def specWrappedSum (f : DhtFrame) : Nat :=
  (f.b0 + f.b1 + f.b2 + f.b3) % 256

/-- Boolean test of an error result, used to phrase retry hypotheses. -/
def isErr (r : Except DhtError (Nat × Nat)) : Bool :=
  match r with
  | Except.error _ => true
  | Except.ok _ => false

/-- Loop body of Dht11::read_with_retry (dht11.rs lines 92-106) against an
oracle giving the outcome of the i-th call to read.  Returns the Rust return
value together with the number of read attempts performed and the number of
100 ms sleeps performed (the source sleeps once after every failed attempt).
The third argument is the running last_error variable. -/
def readWithRetryGo (oracle : Nat → Except DhtError (Nat × Nat)) :
    Nat → Nat → DhtError → Except DhtError (Nat × Nat) × Nat × Nat
  | _, 0, lastError => (Except.error lastError, 0, 0)
  | i, fuel + 1, _ =>
    match oracle i with
    | Except.ok v => (Except.ok v, 1, 0)
    | Except.error e =>
      let r := readWithRetryGo oracle (i + 1) fuel e
      (r.1, r.2.1 + 1, r.2.2 + 1)

/-- Dht11::read_with_retry(retry_count): the loop starts at attempt 0 with
last_error initialised to NoResponse, exactly as in the source. -/
def read_with_retry (oracle : Nat → Except DhtError (Nat × Nat))
    (retryCount : Nat) : Except DhtError (Nat × Nat) × Nat × Nat :=
  readWithRetryGo oracle 0 retryCount DhtError.noResponse

/-- A read source that fails twice and then succeeds, for the concrete
retry scenario of the specification. -/
def dhtOracle3 : Nat → Except DhtError (Nat × Nat) := fun i =>
  if i = 0 then Except.error DhtError.noResponse
  else if i = 1 then Except.error DhtError.invalidResponse
  else Except.ok (25, 60)

section DhtLemmas

theorem readWithRetryGo_attempts_le (oracle : Nat → Except DhtError (Nat × Nat)) :
    ∀ (fuel i : Nat) (le : DhtError),
      (readWithRetryGo oracle i fuel le).2.1 ≤ fuel := by
  intro fuel
  induction fuel with
  | zero => intro i le; simp [readWithRetryGo]
  | succ n ih =>
    intro i le
    simp only [readWithRetryGo]
    cases h : oracle i with
    | ok v => simp
    | error e =>
      simp only
      have := ih (i + 1) e
      omega

theorem readWithRetryGo_success (oracle : Nat → Except DhtError (Nat × Nat)) :
    ∀ (k fuel i : Nat) (le : DhtError) (v : Nat × Nat),
      k < fuel → oracle (i + k) = Except.ok v →
      (∀ j, j < k → isErr (oracle (i + j)) = true) →
      readWithRetryGo oracle i fuel le = (Except.ok v, k + 1, k) := by
  intro k
  induction k with
  | zero =>
    intro fuel i le v hk hok _
    cases fuel with
    | zero => omega
    | succ n =>
      have hok2 : oracle i = Except.ok v := by simpa using hok
      simp [readWithRetryGo, hok2]
  | succ m ih =>
    intro fuel i le v hk hok hfail
    cases fuel with
    | zero => omega
    | succ n =>
      have h0 : isErr (oracle i) = true := by
        have h := hfail 0 (by omega); simpa using h
      simp only [readWithRetryGo]
      cases he : oracle i with
      | ok w => rw [he] at h0; simp [isErr] at h0
      | error e =>
        have hrec : readWithRetryGo oracle (i + 1) n e = (Except.ok v, m + 1, m) := by
          apply ih n (i + 1) e v (by omega)
          · have : i + 1 + m = i + (m + 1) := by omega
            rw [this]; exact hok
          · intro j hj
            have : i + 1 + j = i + (j + 1) := by omega
            rw [this]; exact hfail (j + 1) (by omega)
        simp [hrec]

theorem readWithRetryGo_allfail (oracle : Nat → Except DhtError (Nat × Nat)) :
    ∀ (fuel i : Nat) (le e : DhtError),
      0 < fuel →
      (∀ j, j < fuel → isErr (oracle (i + j)) = true) →
      oracle (i + (fuel - 1)) = Except.error e →
      readWithRetryGo oracle i fuel le = (Except.error e, fuel, fuel) := by
  intro fuel
  induction fuel with
  | zero => intro i le e h; omega
  | succ n ih =>
    intro i le e _ hfail hlast
    have h0 : isErr (oracle i) = true := by
      have h := hfail 0 (by omega); simpa using h
    simp only [readWithRetryGo]
    cases he : oracle i with
    | ok w => rw [he] at h0; simp [isErr] at h0
    | error e0 =>
      cases n with
      | zero =>
        have : oracle i = Except.error e := by simpa using hlast
        rw [this] at he
        cases he
        simp [readWithRetryGo]
      | succ m =>
        have hrec : readWithRetryGo oracle (i + 1) (m + 1) e0 =
            (Except.error e, m + 1, m + 1) := by
          apply ih (i + 1) e0 e (by omega)
          · intro j hj
            have : i + 1 + j = i + (j + 1) := by omega
            rw [this]; exact hfail (j + 1) (by omega)
          · have : i + 1 + (m + 1 - 1) = i + (m + 2 - 1) := by omega
            rw [this]; exact hlast
        simp [hrec]

end DhtLemmas

/-- Claim C1 (amended): for every 5-byte frame whose bytes 0 through 3 sum to
at most 255 (so the checksum addition of Dht11::read does not overflow),
read returns Ok((byte2, byte1... byte0)) exactly when byte 4 equals the
wrapped sum — which under the hypothesis coincides with the plain sum — and
Err(ChecksumMismatch) exactly when it differs.  Frames whose byte sum
exceeds 255 are excluded: on them the addition on dht11.rs line 80
overflows instead of wrapping (see the counterexample). -/
theorem dht_read_checksum_spec (f : DhtFrame)
    (h : f.b0 + f.b1 + f.b2 + f.b3 ≤ 255) :
    dhtRead f = some (if f.b4 = specWrappedSum f then Except.ok (f.b2, f.b0)
      else Except.error DhtError.checksumMismatch)
    ∧ specWrappedSum f = f.b0 + f.b1 + f.b2 + f.b3 := by
  have hw : specWrappedSum f = f.b0 + f.b1 + f.b2 + f.b3 :=
    Nat.mod_eq_of_lt (by omega)
  refine ⟨?_, hw⟩
  have h01 : f.b0 + f.b1 ≤ 255 := by omega
  have h02 : f.b0 + f.b1 + f.b2 ≤ 255 := by omega
  have hsum : dhtChecksumSum f = some (f.b0 + f.b1 + f.b2 + f.b3) := by
    simp [dhtChecksumSum, u8add, h01, h02, h]
  by_cases hb : f.b4 = f.b0 + f.b1 + f.b2 + f.b3
  · simp [dhtRead, hsum, hw, hb]
  · simp [dhtRead, hsum, hw, hb]

/-- Witness for C1: a concrete checksum-valid frame decodes to
Ok((byte2, byte0)), and a concrete mismatching frame is rejected. -/
theorem dht_read_checksum_witness :
    dhtRead ⟨1, 2, 3, 4, 10⟩ = some (Except.ok (3, 1))
    ∧ dhtRead ⟨1, 2, 3, 4, 11⟩ =
        some (Except.error DhtError.checksumMismatch) := by
  constructor
  · have h := (dht_read_checksum_spec ⟨1, 2, 3, 4, 10⟩ (by decide)).1
    simpa using h
  · have h := (dht_read_checksum_spec ⟨1, 2, 3, 4, 11⟩ (by decide)).1
    simpa using h

/-- Counterexample to C1 as stated: the frame (255, 1, 0, 0, 0) satisfies
byte4 = wrapped sum (both are 0), so the claim demands Ok((0, 255)); but
Dht11::read evaluates 255 + 1 with a plain u8 addition, which overflows
(no value is produced; a panic when overflow checks are compiled in), so
read does not return Ok((0, 255)). -/
theorem dht_read_checksum_overflow_cex :
    specWrappedSum ⟨255, 1, 0, 0, 0⟩ = 0
    ∧ (DhtFrame.mk 255 1 0 0 0).b4 = 0
    ∧ dhtRead ⟨255, 1, 0, 0, 0⟩ = none
    ∧ dhtRead ⟨255, 1, 0, 0, 0⟩ ≠ some (Except.ok (0, 255)) := by
  decide

/-- Claim C2 is wrong about the code: the checksum comparison is not a total
modulo-256 wrapping sum.  On the frame (200, 100, 0, 0, 44) the byte sum is
300, whose wrap would be 44 and would match byte 4, but the plain u8
addition chain of dht11.rs line 80 produces no value (an
arithmetic-overflow error, a panic when overflow checks are compiled in)
instead of wrapping. -/
theorem dht_checksum_sum_overflow :
    dhtChecksumSum ⟨200, 100, 0, 0, 44⟩ = none
    ∧ specWrappedSum ⟨200, 100, 0, 0, 44⟩ = 44
    ∧ dhtRead ⟨200, 100, 0, 0, 44⟩ = none := by
  decide

/-- Claim C5: read_with_retry(n) makes at most n read attempts; if the first
k attempts fail and attempt k succeeds (k < n) it returns that reading
after exactly k + 1 attempts and k 100 ms sleeps (one between consecutive
attempts); if all n attempts fail it returns the error of the last attempt;
and against a source failing twice then succeeding, read_with_retry(3)
returns the successful reading having slept exactly twice. -/
theorem dht_read_with_retry_spec :
    (∀ (oracle : Nat → Except DhtError (Nat × Nat)) (n : Nat),
        (read_with_retry oracle n).2.1 ≤ n)
    ∧ (∀ (oracle : Nat → Except DhtError (Nat × Nat)) (n k : Nat) (v : Nat × Nat),
        k < n → oracle k = Except.ok v →
        (∀ j, j < k → isErr (oracle j) = true) →
        read_with_retry oracle n = (Except.ok v, k + 1, k))
    ∧ (∀ (oracle : Nat → Except DhtError (Nat × Nat)) (n : Nat) (e : DhtError),
        0 < n → (∀ j, j < n → isErr (oracle j) = true) →
        oracle (n - 1) = Except.error e →
        read_with_retry oracle n = (Except.error e, n, n))
    ∧ read_with_retry dhtOracle3 3 = (Except.ok (25, 60), 3, 2) := by
  refine ⟨?_, ?_, ?_, by decide⟩
  · intro oracle n
    exact readWithRetryGo_attempts_le oracle n 0 DhtError.noResponse
  · intro oracle n k v hk hok hfail
    apply readWithRetryGo_success oracle k n 0 DhtError.noResponse v hk
    · simpa using hok
    · intro j hj; simpa using hfail j hj
  · intro oracle n e hn hfail hlast
    apply readWithRetryGo_allfail oracle n 0 DhtError.noResponse e hn
    · intro j hj; simpa using hfail j hj
    · simpa using hlast

/-- Witness for C5: the success characterisation applied to the concrete
fails-twice-then-succeeds source with three attempts allowed. -/
theorem dht_read_with_retry_witness :
    (2 : Nat) < 3 ∧ read_with_retry dhtOracle3 3 = (Except.ok (25, 60), 3, 2) :=
  ⟨by decide, dht_read_with_retry_spec.2.1 dhtOracle3 3 2 (25, 60)
    (by decide) (by decide) (by decide)⟩

/-- Which button was pressed, from main.rs (enum ButtonType). -/
inductive ButtonType where
  | a
  | b
  | c
  | d
  deriving DecidableEq

/-- Which sensor raised an alert, from main.rs (enum SensorMessage). -/
inductive SensorMessage where
  | motionSensor
  | contactSensor
  deriving DecidableEq

/-- DEBOUNCE_TIME from main.rs line 68: 20 milliseconds. -/
def DEBOUNCE_TIME_MS : Nat := 20

/-- One iteration of a button task body (main.rs lines 78-86, generated four
times by the button_task macro) after a falling edge observed at time t.
The trace line gives the sampled level at each millisecond, true = high; the
buttons are active-low.  The task sleeps for the debounce window, then skips
the press if the pin reads high, otherwise sends exactly one event.  The
returned list is what gets sent to BUTTON_CHANNEL by this iteration. -/
def button_task_iter (line : Nat → Bool) (t : Nat) (btype : ButtonType) :
    List ButtonType :=
  if line (t + DEBOUNCE_TIME_MS) then [] else [btype]

/-- One iteration of motion_task after wait_for_high returned at time t
(main.rs lines 113-118): sleep the debounce window, skip if the pin reads
low, otherwise send exactly one MotionSensor alert.  Active-high line. -/
def motion_task_iter (line : Nat → Bool) (t : Nat) : List SensorMessage :=
  if line (t + DEBOUNCE_TIME_MS) = false then []
  else [SensorMessage.motionSensor]

/-- One iteration of contact_task after wait_for_high returned at time t
(main.rs lines 136-141), identical shape to motion_task. -/
def contact_task_iter (line : Nat → Bool) (t : Nat) : List SensorMessage :=
  if line (t + DEBOUNCE_TIME_MS) = false then []
  else [SensorMessage.contactSensor]

/-- Claim C4: for every debounced source, an edge whose line stays at the
active level through the whole 20 ms debounce window emits exactly one
event, and an edge whose line is back at the inactive level at the end of
the window emits nothing (and no error: the iteration is total). -/
theorem debounce_spec :
    (∀ (line : Nat → Bool) (t : Nat) (btype : ButtonType),
        (∀ d, d ≤ DEBOUNCE_TIME_MS → line (t + d) = false) →
        button_task_iter line t btype = [btype])
    ∧ (∀ (line : Nat → Bool) (t : Nat) (btype : ButtonType),
        line (t + DEBOUNCE_TIME_MS) = true →
        button_task_iter line t btype = [])
    ∧ (∀ (line : Nat → Bool) (t : Nat),
        (∀ d, d ≤ DEBOUNCE_TIME_MS → line (t + d) = true) →
        motion_task_iter line t = [SensorMessage.motionSensor])
    ∧ (∀ (line : Nat → Bool) (t : Nat),
        line (t + DEBOUNCE_TIME_MS) = false →
        motion_task_iter line t = [])
    ∧ (∀ (line : Nat → Bool) (t : Nat),
        (∀ d, d ≤ DEBOUNCE_TIME_MS → line (t + d) = true) →
        contact_task_iter line t = [SensorMessage.contactSensor])
    ∧ (∀ (line : Nat → Bool) (t : Nat),
        line (t + DEBOUNCE_TIME_MS) = false →
        contact_task_iter line t = []) := by
  refine ⟨?_, ?_, ?_, ?_, ?_, ?_⟩
  · intro line t btype h
    have hs := h DEBOUNCE_TIME_MS (le_refl _)
    simp [button_task_iter, hs]
  · intro line t btype h
    simp [button_task_iter, h]
  · intro line t h
    have hs := h DEBOUNCE_TIME_MS (le_refl _)
    simp [motion_task_iter, hs]
  · intro line t h
    simp [motion_task_iter, h]
  · intro line t h
    have hs := h DEBOUNCE_TIME_MS (le_refl _)
    simp [contact_task_iter, hs]
  · intro line t h
    simp [contact_task_iter, h]

/-- Witness for C4: a line held stably low emits one button event; a line
that bounced back high by the end of the window emits none. -/
theorem debounce_witness :
    button_task_iter (fun _ => false) 0 ButtonType.a = [ButtonType.a]
    ∧ button_task_iter (fun _ => true) 0 ButtonType.a = [] :=
  ⟨debounce_spec.1 (fun _ => false) 0 ButtonType.a (fun _ _ => rfl),
    debounce_spec.2.1 (fun _ => true) 0 ButtonType.a rfl⟩

/-- UI states, from ui.rs (enum UiState). -/
inductive UiState where
  | selectingDelay
  | modifyingDelay
  | displaying
  deriving DecidableEq

/-- What the setup screen currently selects, from ui.rs (enum DelaySelection). -/
inductive DelaySelection where
  | dht
  | motion
  | contact
  | mqtt
  deriving DecidableEq

/-- DelaySelection::previous from ui.rs lines 775-782. -/
def DelaySelection.previous : DelaySelection → DelaySelection
  | .dht => .dht
  | .motion => .dht
  | .contact => .motion
  | .mqtt => .contact

/-- DelaySelection::next from ui.rs lines 784-791. -/
def DelaySelection.next : DelaySelection → DelaySelection
  | .dht => .motion
  | .motion => .contact
  | .contact => .mqtt
  | .mqtt => .mqtt

/-- GENERIC_MIN_READ_DELAY from ui.rs line 26. -/
def GENERIC_MIN_READ_DELAY : Nat := 2

/-- GENERIC_MAX_READ_DELAY from ui.rs line 27. -/
def GENERIC_MAX_READ_DELAY : Nat := 30

/-- The UI state the button handlers mutate: the Ui struct fields reachable
from the button interface together with the process-wide atomics of ui.rs
(MOTION_READ_DELAY, CONTACT_READ_DELAY and the three enable flags).  Display
and tracker fields are rendering-only and are not part of the model. -/
structure Ui where
  state : UiState
  selection : DelaySelection
  dht_delay : Nat
  dht_enabled : Bool
  motion_read_delay : Nat
  contact_read_delay : Nat
  motion_enabled : Bool
  contact_enabled : Bool
  mqtt_enabled : Bool
  deriving DecidableEq

/-- The initial UI state: Ui::new (ui.rs lines 227-246) starts displaying
with the DHT selected and dht_delay = 2; the statics of ui.rs lines 29-34
initialise both read-delay atomics to 2 and all enable flags to true. -/
def uiInit : Ui :=
  ⟨UiState.displaying, DelaySelection.dht, 2, true, 2, 2, true, true, true⟩

/-- Ui::get_selected_delay (ui.rs lines 606-613); the MQTT arm panics,
modelled as none. -/
def Ui.get_selected_delay (ui : Ui) : Option Nat :=
  match ui.selection with
  | .dht => some ui.dht_delay
  | .contact => some ui.contact_read_delay
  | .motion => some ui.motion_read_delay
  | .mqtt => none

/-- Ui::store_selected_delay (ui.rs lines 615-622); the MQTT arm panics,
modelled as none. -/
def Ui.store_selected_delay (ui : Ui) (val : Nat) : Option Ui :=
  match ui.selection with
  | .dht => some { ui with dht_delay := val }
  | .contact => some { ui with contact_read_delay := val }
  | .motion => some { ui with motion_read_delay := val }
  | .mqtt => none

/-- Ui::is_selection_enabled (ui.rs lines 634-641). -/
def Ui.is_selection_enabled (ui : Ui) : Bool :=
  match ui.selection with
  | .dht => ui.dht_enabled
  | .contact => ui.contact_enabled
  | .motion => ui.motion_enabled
  | .mqtt => ui.mqtt_enabled

/-- Ui::toggle_selected (ui.rs lines 624-632), state change only. -/
def Ui.toggle_selected (ui : Ui) : Ui :=
  match ui.selection with
  | .dht => { ui with dht_enabled := !ui.dht_enabled }
  | .contact => { ui with contact_enabled := !ui.contact_enabled }
  | .motion => { ui with motion_enabled := !ui.motion_enabled }
  | .mqtt => { ui with mqtt_enabled := !ui.mqtt_enabled }

/-- The panic-relevant control flow of Ui::draw_content (ui.rs lines
507-604): in the ModifyingDelay state it reads the selected delay through
get_selected_delay only when the selection is not MQTT and is enabled; every
other branch only formats and draws.  none models a panic. -/
def Ui.draw_content (ui : Ui) : Option Unit :=
  match ui.state with
  | .modifyingDelay =>
    if ui.selection = DelaySelection.mqtt then some ()
    else if ui.is_selection_enabled then ui.get_selected_delay.map fun _ => ()
    else some ()
  | _ => some ()

/-- Ui::update (ui.rs lines 256-259): redraws the current content. -/
def Ui.update (ui : Ui) : Option Ui :=
  ui.draw_content.map fun _ => ui

/-- Ui::set_state (ui.rs lines 249-252): stores the state then redraws. -/
def Ui.set_state (ui : Ui) (s : UiState) : Option Ui :=
  Ui.update { ui with state := s }

/-- Ui::decrease_delay (ui.rs lines 735-744): when the selection is enabled
and is not MQTT, reads the selected delay, decrements and stores it only
when it is above GENERIC_MIN_READ_DELAY; always ends with update. -/
def Ui.decrease_delay (ui : Ui) : Option Ui :=
  let stored :=
    if ui.is_selection_enabled = true ∧ ui.selection ≠ DelaySelection.mqtt then
      ui.get_selected_delay.bind fun delay =>
        if GENERIC_MIN_READ_DELAY < delay then
          ui.store_selected_delay (delay - 1)
        else
          some ui
    else
      some ui
  stored.bind Ui.update

/-- Ui::increase_delay (ui.rs lines 746-755): mirror image of
decrease_delay bounded by GENERIC_MAX_READ_DELAY. -/
def Ui.increase_delay (ui : Ui) : Option Ui :=
  let stored :=
    if ui.is_selection_enabled = true ∧ ui.selection ≠ DelaySelection.mqtt then
      ui.get_selected_delay.bind fun delay =>
        if delay < GENERIC_MAX_READ_DELAY then
          ui.store_selected_delay (delay + 1)
        else
          some ui
    else
      some ui
  stored.bind Ui.update

/-- Ui::handle_button_press (ui.rs lines 262-298). -/
def Ui.handle_button_press (ui : Ui) (button : ButtonType) : Option Ui :=
  match ui.state with
  | .displaying => ui.set_state UiState.selectingDelay
  | .selectingDelay =>
    match button with
    | .a => Ui.set_state { ui with selection := DelaySelection.dht }
        UiState.displaying
    | .b => Ui.update { ui with selection := ui.selection.previous }
    | .c => Ui.update { ui with selection := ui.selection.next }
    | .d => ui.set_state UiState.modifyingDelay
  | .modifyingDelay =>
    match button with
    | .a => Ui.update ui.toggle_selected
    | .b => ui.increase_delay
    | .c => ui.decrease_delay
    | .d => ui.set_state UiState.selectingDelay

/-- Folds a sequence of button presses through the UI, propagating a panic. -/
def Ui.run_buttons : Ui → List ButtonType → Option Ui
  | ui, [] => some ui
  | ui, b :: rest => (ui.handle_button_press b).bind fun ui2 =>
      ui2.run_buttons rest

/-- All three per-source read delays lie in the configured [2, 30] range. -/
def Ui.delays_in_range (ui : Ui) : Prop :=
  GENERIC_MIN_READ_DELAY ≤ ui.dht_delay
    ∧ ui.dht_delay ≤ GENERIC_MAX_READ_DELAY
    ∧ GENERIC_MIN_READ_DELAY ≤ ui.motion_read_delay
    ∧ ui.motion_read_delay ≤ GENERIC_MAX_READ_DELAY
    ∧ GENERIC_MIN_READ_DELAY ≤ ui.contact_read_delay
    ∧ ui.contact_read_delay ≤ GENERIC_MAX_READ_DELAY

instance (ui : Ui) : Decidable ui.delays_in_range := by
  unfold Ui.delays_in_range; infer_instance

section UiLemmas

theorem get_selected_delay_isSome (ui : Ui)
    (h : ui.selection ≠ DelaySelection.mqtt) :
    ∃ d, ui.get_selected_delay = some d := by
  cases hs : ui.selection <;>
    simp [Ui.get_selected_delay, hs] <;> simp [hs] at h

theorem draw_content_isSome (ui : Ui) : ui.draw_content.isSome = true := by
  unfold Ui.draw_content
  cases hs : ui.state <;> simp
  by_cases hm : ui.selection = DelaySelection.mqtt
  · simp [hm]
  · obtain ⟨d, hd⟩ := get_selected_delay_isSome ui hm
    simp [hm, hd]

theorem update_eq (ui : Ui) : ui.update = some ui := by
  have h := draw_content_isSome ui
  unfold Ui.update
  cases hc : ui.draw_content with
  | none => rw [hc] at h; simp at h
  | some u => simp

theorem set_state_eq (ui : Ui) (s : UiState) :
    ui.set_state s = some { ui with state := s } := by
  unfold Ui.set_state
  exact update_eq _

theorem store_selected_delay_isSome (ui : Ui)
    (h : ui.selection ≠ DelaySelection.mqtt) (val : Nat) :
    ∃ ui2, ui.store_selected_delay val = some ui2 := by
  cases hs : ui.selection <;>
    simp [Ui.store_selected_delay, hs] <;> simp [hs] at h

theorem decrease_delay_isSome (ui : Ui) :
    ∃ ui2, ui.decrease_delay = some ui2 := by
  unfold Ui.decrease_delay
  by_cases hg : ui.is_selection_enabled = true
      ∧ ui.selection ≠ DelaySelection.mqtt
  · obtain ⟨d, hd⟩ := get_selected_delay_isSome ui hg.2
    by_cases hlt : GENERIC_MIN_READ_DELAY < d
    · obtain ⟨ui2, hst⟩ := store_selected_delay_isSome ui hg.2 (d - 1)
      refine ⟨ui2, ?_⟩
      simp [hg, hd, hlt, hst, update_eq]
    · refine ⟨ui, ?_⟩
      simp [hg, hd, hlt, update_eq]
  · refine ⟨ui, ?_⟩
    simp [hg, update_eq]

theorem increase_delay_isSome (ui : Ui) :
    ∃ ui2, ui.increase_delay = some ui2 := by
  unfold Ui.increase_delay
  by_cases hg : ui.is_selection_enabled = true
      ∧ ui.selection ≠ DelaySelection.mqtt
  · obtain ⟨d, hd⟩ := get_selected_delay_isSome ui hg.2
    by_cases hlt : d < GENERIC_MAX_READ_DELAY
    · obtain ⟨ui2, hst⟩ := store_selected_delay_isSome ui hg.2 (d + 1)
      refine ⟨ui2, ?_⟩
      simp [hg, hd, hlt, hst, update_eq]
    · refine ⟨ui, ?_⟩
      simp [hg, hd, hlt, update_eq]
  · refine ⟨ui, ?_⟩
    simp [hg, update_eq]

theorem handle_button_press_isSome (ui : Ui) (button : ButtonType) :
    ∃ ui2, ui.handle_button_press button = some ui2 := by
  unfold Ui.handle_button_press
  cases hs : ui.state
  · cases button
    · exact ⟨_, set_state_eq _ _⟩
    · exact ⟨_, update_eq _⟩
    · exact ⟨_, update_eq _⟩
    · exact ⟨_, set_state_eq _ _⟩
  · cases button
    · exact ⟨_, update_eq _⟩
    · exact increase_delay_isSome ui
    · exact decrease_delay_isSome ui
    · exact ⟨_, set_state_eq _ _⟩
  · exact ⟨_, set_state_eq _ _⟩

theorem get_selected_delay_range (ui : Ui) (d : Nat)
    (h : ui.get_selected_delay = some d) (hr : ui.delays_in_range) :
    GENERIC_MIN_READ_DELAY ≤ d ∧ d ≤ GENERIC_MAX_READ_DELAY := by
  obtain ⟨h1, h2, h3, h4, h5, h6⟩ := hr
  cases hs : ui.selection <;> simp [Ui.get_selected_delay, hs] at h <;> omega

theorem store_selected_delay_range (ui ui2 : Ui) (val : Nat)
    (h : ui.store_selected_delay val = some ui2)
    (hval : GENERIC_MIN_READ_DELAY ≤ val ∧ val ≤ GENERIC_MAX_READ_DELAY)
    (hr : ui.delays_in_range) : ui2.delays_in_range := by
  obtain ⟨h1, h2, h3, h4, h5, h6⟩ := hr
  cases hs : ui.selection <;> simp [Ui.store_selected_delay, hs] at h <;>
    (rw [Ui.delays_in_range, ← h]; simp; omega)

theorem increase_delay_shape (ui : Ui) :
    ui.increase_delay = some ui
    ∨ ∃ d, ui.get_selected_delay = some d ∧ d < GENERIC_MAX_READ_DELAY ∧
        ui.increase_delay = ui.store_selected_delay (d + 1) := by
  unfold Ui.increase_delay
  by_cases hg : ui.is_selection_enabled = true
      ∧ ui.selection ≠ DelaySelection.mqtt
  · obtain ⟨d, hd⟩ := get_selected_delay_isSome ui hg.2
    by_cases hlt : d < GENERIC_MAX_READ_DELAY
    · obtain ⟨u2, hst⟩ := store_selected_delay_isSome ui hg.2 (d + 1)
      right
      exact ⟨d, hd, hlt, by simp [hg, hd, hlt, hst, update_eq]⟩
    · left; simp [hg, hd, hlt, update_eq]
  · left; simp [hg, update_eq]

theorem decrease_delay_shape (ui : Ui) :
    ui.decrease_delay = some ui
    ∨ ∃ d, ui.get_selected_delay = some d ∧ GENERIC_MIN_READ_DELAY < d ∧
        ui.decrease_delay = ui.store_selected_delay (d - 1) := by
  unfold Ui.decrease_delay
  by_cases hg : ui.is_selection_enabled = true
      ∧ ui.selection ≠ DelaySelection.mqtt
  · obtain ⟨d, hd⟩ := get_selected_delay_isSome ui hg.2
    by_cases hlt : GENERIC_MIN_READ_DELAY < d
    · obtain ⟨u2, hst⟩ := store_selected_delay_isSome ui hg.2 (d - 1)
      right
      exact ⟨d, hd, hlt, by simp [hg, hd, hlt, hst, update_eq]⟩
    · left; simp [hg, hd, hlt, update_eq]
  · left; simp [hg, update_eq]

theorem increase_delay_range (ui ui2 : Ui)
    (h : ui.increase_delay = some ui2) (hr : ui.delays_in_range) :
    ui2.delays_in_range := by
  rcases increase_delay_shape ui with heq | ⟨d, hd, hlt, heq⟩
  · rw [heq] at h; cases h; exact hr
  · rw [heq] at h
    have hdr := get_selected_delay_range ui d hd hr
    exact store_selected_delay_range ui ui2 (d + 1) h (by omega) hr

theorem decrease_delay_range (ui ui2 : Ui)
    (h : ui.decrease_delay = some ui2) (hr : ui.delays_in_range) :
    ui2.delays_in_range := by
  rcases decrease_delay_shape ui with heq | ⟨d, hd, hlt, heq⟩
  · rw [heq] at h; cases h; exact hr
  · rw [heq] at h
    have hdr := get_selected_delay_range ui d hd hr
    exact store_selected_delay_range ui ui2 (d - 1) h (by omega) hr

theorem delays_in_range_same (ui ui2 : Ui)
    (h1 : ui2.dht_delay = ui.dht_delay)
    (h2 : ui2.motion_read_delay = ui.motion_read_delay)
    (h3 : ui2.contact_read_delay = ui.contact_read_delay)
    (hr : ui.delays_in_range) : ui2.delays_in_range := by
  obtain ⟨g1, g2, g3, g4, g5, g6⟩ := hr
  exact ⟨by omega, by omega, by omega, by omega, by omega, by omega⟩

theorem toggle_selected_delays (ui : Ui) :
    (ui.toggle_selected).dht_delay = ui.dht_delay
    ∧ (ui.toggle_selected).motion_read_delay = ui.motion_read_delay
    ∧ (ui.toggle_selected).contact_read_delay = ui.contact_read_delay := by
  cases hs : ui.selection <;> simp [Ui.toggle_selected, hs]

theorem handle_button_press_range (ui ui2 : Ui) (button : ButtonType)
    (h : ui.handle_button_press button = some ui2)
    (hr : ui.delays_in_range) : ui2.delays_in_range := by
  unfold Ui.handle_button_press at h
  cases hs : ui.state
  case displaying =>
    simp only [hs] at h
    rw [set_state_eq, Option.some_inj] at h
    subst h
    exact delays_in_range_same ui _ rfl rfl rfl hr
  case selectingDelay =>
    simp only [hs] at h
    cases button
    case a =>
      simp only [] at h
      rw [set_state_eq, Option.some_inj] at h
      subst h
      exact delays_in_range_same ui _ rfl rfl rfl hr
    case b =>
      simp only [] at h
      rw [update_eq, Option.some_inj] at h
      subst h
      exact delays_in_range_same ui _ rfl rfl rfl hr
    case c =>
      simp only [] at h
      rw [update_eq, Option.some_inj] at h
      subst h
      exact delays_in_range_same ui _ rfl rfl rfl hr
    case d =>
      simp only [] at h
      rw [set_state_eq, Option.some_inj] at h
      subst h
      exact delays_in_range_same ui _ rfl rfl rfl hr
  case modifyingDelay =>
    simp only [hs] at h
    cases button
    case a =>
      simp only [] at h
      rw [update_eq, Option.some_inj] at h
      subst h
      obtain ⟨t1, t2, t3⟩ := toggle_selected_delays ui
      exact delays_in_range_same ui _ t1 t2 t3 hr
    case b => exact increase_delay_range ui ui2 h hr
    case c => exact decrease_delay_range ui ui2 h hr
    case d =>
      simp only [] at h
      rw [set_state_eq, Option.some_inj] at h
      subst h
      exact delays_in_range_same ui _ rfl rfl rfl hr

theorem run_buttons_range (buttons : List ButtonType) :
    ∀ (ui ui2 : Ui), ui.run_buttons buttons = some ui2 →
      ui.delays_in_range → ui2.delays_in_range := by
  induction buttons with
  | nil => intro ui ui2 h hr; simp [Ui.run_buttons] at h; rwa [← h]
  | cons btn rest ih =>
    intro ui ui2 h hr
    obtain ⟨uimid, hmid⟩ := handle_button_press_isSome ui btn
    rw [Ui.run_buttons, hmid] at h
    simp at h
    exact ih uimid ui2 h (handle_button_press_range ui uimid btn hmid hr)

end UiLemmas

/-- Claim C6: the DHT delay and the MOTION_READ_DELAY and
CONTACT_READ_DELAY atomics are all initialised to 2; increase_delay and
decrease_delay preserve the [2, 30] range (so every state reachable through
the button interface keeps all three delays inside the bounds); and an
attempt to go below 2 or above 30 stores nothing — the UI state is returned
unchanged. -/
theorem ui_delay_bounds_spec :
    (uiInit.dht_delay = GENERIC_MIN_READ_DELAY
      ∧ uiInit.motion_read_delay = GENERIC_MIN_READ_DELAY
      ∧ uiInit.contact_read_delay = GENERIC_MIN_READ_DELAY)
    ∧ (∀ (ui ui2 : Ui) (button : ButtonType),
        ui.handle_button_press button = some ui2 →
        ui.delays_in_range → ui2.delays_in_range)
    ∧ (∀ (buttons : List ButtonType) (ui2 : Ui),
        uiInit.run_buttons buttons = some ui2 → ui2.delays_in_range)
    ∧ (∀ ui : Ui, ui.is_selection_enabled = true →
        ui.selection ≠ DelaySelection.mqtt →
        ui.get_selected_delay = some GENERIC_MIN_READ_DELAY →
        ui.decrease_delay = some ui)
    ∧ (∀ ui : Ui, ui.is_selection_enabled = true →
        ui.selection ≠ DelaySelection.mqtt →
        ui.get_selected_delay = some GENERIC_MAX_READ_DELAY →
        ui.increase_delay = some ui) := by
  refine ⟨by decide, handle_button_press_range, ?_, ?_, ?_⟩
  · intro buttons ui2 h
    exact run_buttons_range buttons uiInit ui2 h (by decide)
  · intro ui he hm hget
    unfold Ui.decrease_delay
    simp [he, hm, hget, update_eq]
  · intro ui he hm hget
    unfold Ui.increase_delay
    simp [he, hm, hget, update_eq]

/-- Witness for C6: at the initial state (DHT selected, delay 2) a decrease
is a no-op, and the state reached by entering setup, entering modify and
pressing increase once has all delays inside the bounds. -/
theorem ui_delay_bounds_witness :
    uiInit.decrease_delay = some uiInit
    ∧ Ui.delays_in_range
        ⟨UiState.modifyingDelay, DelaySelection.dht, 3, true, 2, 2,
          true, true, true⟩ :=
  ⟨ui_delay_bounds_spec.2.2.2.1 uiInit (by decide) (by decide) (by decide),
    ui_delay_bounds_spec.2.2.1 [ButtonType.a, ButtonType.d, ButtonType.b]
      ⟨UiState.modifyingDelay, DelaySelection.dht, 3, true, 2, 2,
        true, true, true⟩ (by decide)⟩

/-- Claim C9: the MQTT panic arms of Ui::get_selected_delay and
Ui::store_selected_delay are unreachable from the button interface: every
single button press from any UI state completes without a panic, hence so
does every sequence of button presses from the initial UI state. -/
theorem ui_no_mqtt_delay_panic :
    (∀ (ui : Ui) (button : ButtonType),
        (ui.handle_button_press button).isSome = true)
    ∧ (∀ (buttons : List ButtonType),
        (uiInit.run_buttons buttons).isSome = true) := by
  have hstep : ∀ (ui : Ui) (button : ButtonType),
      (ui.handle_button_press button).isSome = true := by
    intro ui button
    obtain ⟨ui2, h⟩ := handle_button_press_isSome ui button
    simp [h]
  refine ⟨hstep, ?_⟩
  have hrun : ∀ (buttons : List ButtonType) (ui : Ui),
      (ui.run_buttons buttons).isSome = true := by
    intro buttons
    induction buttons with
    | nil => intro ui; simp [Ui.run_buttons]
    | cons b rest ih =>
      intro ui
      obtain ⟨ui2, h⟩ := handle_button_press_isSome ui b
      simp [Ui.run_buttons, h, ih ui2]
  exact fun buttons => hrun buttons uiInit

/-- Witness for C9: the button sequence that enters the setup screen, moves
the selection down to MQTT, enters the modify state and presses every
button there completes without hitting either panic arm. -/
theorem ui_no_mqtt_delay_panic_witness :
    (uiInit.run_buttons [ButtonType.a, ButtonType.c, ButtonType.c,
      ButtonType.c, ButtonType.d, ButtonType.b, ButtonType.c,
      ButtonType.a, ButtonType.d]).isSome = true :=
  ui_no_mqtt_delay_panic.2 [ButtonType.a, ButtonType.c, ButtonType.c,
    ButtonType.c, ButtonType.d, ButtonType.b, ButtonType.c,
    ButtonType.a, ButtonType.d]

/-- Topics carried by readings and publish requests, from ui.rs
(enum ValueType). -/
inductive ValueType where
  | humidity
  | temperature
  | motion
  | contact
  deriving DecidableEq

/-- MqttMessage from mqtt.rs: a publish request with a topic tag and a byte
value. -/
structure MqttMessage where
  topic : ValueType
  value : Nat
  deriving DecidableEq

/-- MqttResponse from mqtt.rs: the per-message publish outcome; status true
models Ok(()), status false models Err(()). -/
structure MqttResponse where
  status : Bool
  topic : ValueType
  deriving DecidableEq

/-- Capacity of BUTTON_CHANNEL (ui.rs line 23). -/
def BUTTON_CHANNEL_CAP : Nat := 10

/-- Capacity of SENSOR_CHANNEL (ui.rs line 24). -/
def SENSOR_CHANNEL_CAP : Nat := 1

/-- Capacity of MQTT_CMD_CHANNEL (mqtt.rs line 30). -/
def MQTT_CMD_CHANNEL_CAP : Nat := 20

/-- Capacity of MQTT_RESP_CHANNEL (mqtt.rs line 31). -/
def MQTT_RESP_CHANNEL_CAP : Nat := 20

/-- A bounded FIFO mailbox with the semantics of the embassy-sync Channel
type instantiating the four statics above (the channel implementation is a
library dependency, embedded here by its documented contract): messages sit
in send order, a receive takes the oldest, and a send on a full channel
does not drop or grow — it suspends the producer, modelled as none. -/
structure Mailbox (α : Type) where
  cap : Nat
  items : List α
  deriving DecidableEq

/-- A fresh empty mailbox of the given capacity. -/
def Mailbox.channelNew (α : Type) (cap : Nat) : Mailbox α := ⟨cap, []⟩

/-- Completing a send: some means the message was enqueued at the back;
none means the mailbox is full and the producer suspends until the
consumer drains at least one element. -/
def Mailbox.send {α : Type} (m : Mailbox α) (a : α) : Option (Mailbox α) :=
  if m.items.length < m.cap then some ⟨m.cap, m.items ++ [a]⟩ else none

/-- Receiving: takes the oldest message; none models the consumer
suspending on an empty mailbox. -/
def Mailbox.receive {α : Type} (m : Mailbox α) : Option (α × Mailbox α) :=
  match m.items with
  | [] => none
  | x :: rest => some (x, ⟨m.cap, rest⟩)

/-- Sends a whole list in order, propagating a suspension. -/
def Mailbox.sendAll {α : Type} (m : Mailbox α) : List α → Option (Mailbox α)
  | [] => some m
  | a :: rest => (m.send a).bind fun m2 => m2.sendAll rest

/-- Twenty distinct publish requests, enough to fill MQTT_CMD_CHANNEL. -/
def twentyRequests : List MqttMessage :=
  (List.range MQTT_CMD_CHANNEL_CAP).map fun i => ⟨ValueType.temperature, i⟩

/-- Claim C7: the four event-fabric mailboxes have capacities 10, 1, 20 and
20; a send on a full mailbox suspends the producer instead of dropping or
growing, and succeeds again once the consumer drains an element; receive
is FIFO; and concretely the 21st publish request on the outbound mailbox
suspends until the Session Manager drains one. -/
theorem mailbox_spec :
    (BUTTON_CHANNEL_CAP = 10 ∧ SENSOR_CHANNEL_CAP = 1
      ∧ MQTT_CMD_CHANNEL_CAP = 20 ∧ MQTT_RESP_CHANNEL_CAP = 20)
    ∧ (∀ (α : Type) (m : Mailbox α) (a : α),
        m.items.length = m.cap → m.send a = none)
    ∧ (∀ (α : Type) (m : Mailbox α) (a : α),
        m.items.length < m.cap → m.send a = some ⟨m.cap, m.items ++ [a]⟩)
    ∧ (∀ (α : Type) (m : Mailbox α) (x : α) (rest : List α),
        m.items = x :: rest → m.receive = some (x, ⟨m.cap, rest⟩))
    ∧ (∀ (α : Type) (m : Mailbox α) (a : α),
        m.items.length = m.cap → 0 < m.cap →
        ∃ x m2, m.receive = some (x, m2) ∧ (m2.send a).isSome = true)
    ∧ ((Mailbox.channelNew MqttMessage MQTT_CMD_CHANNEL_CAP).sendAll
          twentyRequests = some ⟨MQTT_CMD_CHANNEL_CAP, twentyRequests⟩
        ∧ (Mailbox.mk MQTT_CMD_CHANNEL_CAP twentyRequests).send
            ⟨ValueType.humidity, 200⟩ = none
        ∧ ∃ x m2,
            (Mailbox.mk MQTT_CMD_CHANNEL_CAP twentyRequests).receive =
              some (x, m2)
            ∧ (m2.send ⟨ValueType.humidity, 200⟩).isSome = true) := by
  refine ⟨by decide, ?_, ?_, ?_, ?_, by decide, by decide,
    ⟨ValueType.temperature, 0⟩, ⟨MQTT_CMD_CHANNEL_CAP, twentyRequests.tail⟩,
    by decide, by decide⟩
  · intro α m a h
    simp [Mailbox.send, h]
  · intro α m a h
    simp [Mailbox.send, h]
  · intro α m x rest h
    simp [Mailbox.receive, h]
  · intro α m a hfull hpos
    cases hi : m.items with
    | nil => rw [hi] at hfull; simp at hfull; omega
    | cons x rest =>
      refine ⟨x, ⟨m.cap, rest⟩, ?_, ?_⟩
      · simp [Mailbox.receive, hi]
      · have hlen : rest.length + 1 = m.cap := by
          have := hfull; rw [hi] at this; simpa using this
        simp [Mailbox.send]
        omega

/-- Witness for C7: a full two-slot mailbox turns away a third message,
and accepts it after one receive. -/
theorem mailbox_witness :
    Mailbox.send (Mailbox.mk 2 [5, 6]) 7 = none
    ∧ ∃ x m2, Mailbox.receive (Mailbox.mk 2 [(5 : Nat), 6]) = some (x, m2)
        ∧ (m2.send 7).isSome = true :=
  ⟨mailbox_spec.2.1 Nat (Mailbox.mk 2 [5, 6]) 7 (by decide),
    mailbox_spec.2.2.2.2.1 Nat (Mailbox.mk 2 [5, 6]) 7 (by decide) (by decide)⟩

/-- SOCKET_BUFFER_LEN from mqtt.rs line 22. -/
def SOCKET_BUFFER_LEN : Nat := 4096

/-- MQTT_BUFFER_LEN from mqtt.rs line 26. -/
def MQTT_BUFFER_LEN : Nat := 80

/-- Error taxonomy of the session layer, from mqtt.rs (enum MqttError; the
unit payload of ProtocolError is dropped). -/
inductive MqttError where
  | connectionFailed
  | protocolError
  deriving DecidableEq

/-- The connection-owning state of the Mqtt struct together with the four
static reusable scratch buffers of mqtt.rs (RX_BUFFER, TX_BUFFER,
RECV_BUFFER, WRITE_BUFFER) and the socket timeout; the client object is
abstracted to a unit handle. -/
structure MqttConnState where
  client : Option Unit
  rx_buffer : List Nat
  tx_buffer : List Nat
  recv_buffer : List Nat
  write_buffer : List Nat
  socket_timeout_secs : Option Nat
  deriving DecidableEq

/-- Mqtt::new (mqtt.rs lines 62-69): no client yet; the static buffers are
zero-initialised and no socket timeout is set yet. -/
def Mqtt.new : MqttConnState :=
  ⟨none, List.replicate SOCKET_BUFFER_LEN 0, List.replicate SOCKET_BUFFER_LEN 0,
    List.replicate MQTT_BUFFER_LEN 0, List.replicate MQTT_BUFFER_LEN 0, none⟩

/-- Mqtt::connect (mqtt.rs lines 71-118) with the two fallible external
steps as oracles: transportOk is whether socket.connect succeeds, brokerOk
is whether connect_to_broker succeeds.  The function first deletes the old
client, then zeroes the four scratch buffers, sets the 10 s socket timeout
and connects; the question-mark operators convert a transport ConnectError
into ConnectionFailed and a broker ReasonCode into ProtocolError. -/
def Mqtt.connect (transportOk brokerOk : Bool) (st : MqttConnState) :
    MqttConnState × Except MqttError Unit :=
  let st1 : MqttConnState := { st with client := none }
  let st2 : MqttConnState :=
    { st1 with
      rx_buffer := List.replicate SOCKET_BUFFER_LEN 0
      tx_buffer := List.replicate SOCKET_BUFFER_LEN 0
      recv_buffer := List.replicate MQTT_BUFFER_LEN 0
      write_buffer := List.replicate MQTT_BUFFER_LEN 0 }
  let st3 : MqttConnState := { st2 with socket_timeout_secs := some 10 }
  if transportOk = false then (st3, Except.error MqttError.connectionFailed)
  else if brokerOk = false then (st3, Except.error MqttError.protocolError)
  else ({ st3 with client := some () }, Except.ok ())

/-- Claim C8: for every prior state, connect leaves all four reusable
scratch buffers zeroed and the socket timeout at 10 seconds; it returns Ok
exactly when the transport connect and the broker handshake both succeed,
ConnectionFailed when the transport connect fails, ProtocolError when only
the handshake fails; the prior client object is deleted in every case and
a client exists afterwards exactly on the Ok path. -/
theorem mqtt_connect_spec (transportOk brokerOk : Bool) (st : MqttConnState) :
    (Mqtt.connect transportOk brokerOk st).1.rx_buffer =
        List.replicate SOCKET_BUFFER_LEN 0
    ∧ (Mqtt.connect transportOk brokerOk st).1.tx_buffer =
        List.replicate SOCKET_BUFFER_LEN 0
    ∧ (Mqtt.connect transportOk brokerOk st).1.recv_buffer =
        List.replicate MQTT_BUFFER_LEN 0
    ∧ (Mqtt.connect transportOk brokerOk st).1.write_buffer =
        List.replicate MQTT_BUFFER_LEN 0
    ∧ (Mqtt.connect transportOk brokerOk st).1.socket_timeout_secs = some 10
    ∧ (Mqtt.connect transportOk brokerOk st).2 =
        (if transportOk = false then Except.error MqttError.connectionFailed
          else if brokerOk = false then Except.error MqttError.protocolError
          else Except.ok ())
    ∧ (Mqtt.connect transportOk brokerOk st).1.client =
        (if transportOk && brokerOk then some () else none) := by
  cases transportOk <;> cases brokerOk <;> simp [Mqtt.connect]

/-- Witness for C8: connect applied to a state holding a live client and
dirty buffers, for each of the three oracle outcomes. -/
theorem mqtt_connect_witness :
    (Mqtt.connect false true ⟨some (), [7], [7], [7], [7], some 3⟩).2 =
        Except.error MqttError.connectionFailed
    ∧ (Mqtt.connect true false ⟨some (), [7], [7], [7], [7], some 3⟩).2 =
        Except.error MqttError.protocolError
    ∧ (Mqtt.connect true true ⟨some (), [7], [7], [7], [7], some 3⟩).2 =
        Except.ok ()
    ∧ (Mqtt.connect false true
        ⟨some (), [7], [7], [7], [7], some 3⟩).1.client = none := by
  refine ⟨?_, ?_, ?_, ?_⟩
  · have h := (mqtt_connect_spec false true
      ⟨some (), [7], [7], [7], [7], some 3⟩).2.2.2.2.2.1
    simpa using h
  · have h := (mqtt_connect_spec true false
      ⟨some (), [7], [7], [7], [7], some 3⟩).2.2.2.2.2.1
    simpa using h
  · have h := (mqtt_connect_spec true true
      ⟨some (), [7], [7], [7], [7], some 3⟩).2.2.2.2.2.1
    simpa using h
  · have h := (mqtt_connect_spec false true
      ⟨some (), [7], [7], [7], [7], some 3⟩).2.2.2.2.2.2
    simpa using h

/-- Result of one pass through the queue-flushing loop of mqtt_task
(main.rs lines 192-228): the cached retry slot, the error-suppression
flag, the requests left unread in the channel, the wire send attempts made
(message, success) in order, the PublishOutcome responses emitted in order,
and whether a reconnect was forced. -/
structure DrainResult where
  cached : Option MqttMessage
  already_sent_error : Bool
  queue : List MqttMessage
  sent : List (MqttMessage × Bool)
  outcomes : List MqttResponse
  should_reconnect : Bool
  deriving DecidableEq

/-- The queue-flushing loop over the stream of available messages (the
cached message, if any, followed by the requests receivable this tick; an
empty stream is the 5 s receive timeout).  sendOk gives the result of the
k-th wire send of this pass.  On success the error-suppression flag is
cleared, a success outcome is emitted and the loop continues; on failure
at most one failure outcome is emitted (none when the flag is already
set), the message is cached, a reconnect is forced and the loop breaks,
leaving the rest of the queue unread. -/
def drainList (sendOk : Nat → Bool) : Nat → Bool → List MqttMessage → DrainResult
  | _, ase, [] => ⟨none, ase, [], [], [], false⟩
  | k, ase, msg :: rest =>
    if sendOk k then
      let r := drainList sendOk (k + 1) false rest
      { r with
        sent := (msg, true) :: r.sent
        outcomes := ⟨true, msg.topic⟩ :: r.outcomes }
    else
      ⟨some msg, true, rest, [(msg, false)],
        if ase then [] else [⟨false, msg.topic⟩], true⟩

/-- The drain stage as entered from mqtt_task state: the cached message is
taken first (cached_message.take() on main.rs line 194), then the queue. -/
def drainLoop (sendOk : Nat → Bool) (ase : Bool) (cached : Option MqttMessage)
    (queue : List MqttMessage) : DrainResult :=
  drainList sendOk 0 ase (cached.toList ++ queue)

/-- Environment oracle for one iteration of the mqtt_task outer loop:
whether the transport connect and broker handshake would succeed, whether
the 5 s keep-alive deadline has passed and whether the ping would succeed,
the MQTT_ENABLED flag, and the per-send transport outcomes. -/
structure TickOracle where
  transportOk : Bool
  brokerOk : Bool
  pingDue : Bool
  pingOk : Bool
  mqttEnabled : Bool
  sendOk : Nat → Bool

/-- The task-local mutable state of mqtt_task (main.rs lines 149-157)
together with the connection state owned through the Mqtt struct. -/
structure MqttTaskState where
  conn : MqttConnState
  should_reconnect : Bool
  cached : Option MqttMessage
  already_sent_error : Bool

/-- mqtt_task entry state: should_reconnect = true, no cached message, no
error suppressed yet, fresh Mqtt::new connection state. -/
def mqttTaskInit : MqttTaskState := ⟨Mqtt.new, true, none, false⟩

/-- The queue-flushing stage of one mqtt_task iteration (main.rs lines
188-228).  Returns none exactly when the expect on mqtt.client (line 199)
would panic: a message is available but no client exists.  Otherwise
returns the updated task state, the unread queue, the wire send attempts
and the emitted outcomes. -/
def mqttTickDrain (o : TickOracle) (st : MqttTaskState)
    (queue : List MqttMessage) :
    Option (MqttTaskState × List MqttMessage ×
      List (MqttMessage × Bool) × List MqttResponse) :=
  if o.mqttEnabled = false then some (st, queue, [], [])
  else
    match st.cached.toList ++ queue with
    | [] => some (st, queue, [], [])
    | _ :: _ =>
      match st.conn.client with
      | none => none
      | some _ =>
        let r := drainLoop o.sendOk st.already_sent_error st.cached queue
        some ({ st with
            cached := r.cached
            already_sent_error := r.already_sent_error
            should_reconnect := r.should_reconnect },
          r.queue, r.sent, r.outcomes)

/-- The keep-alive stage of one mqtt_task iteration (main.rs lines
174-187): when the ping deadline has passed and a client exists, a failed
ping forces a reconnect and skips the rest of the iteration; when no
client exists the if-let falls through. -/
def mqttTickPing (o : TickOracle) (st : MqttTaskState)
    (queue : List MqttMessage) :
    Option (MqttTaskState × List MqttMessage ×
      List (MqttMessage × Bool) × List MqttResponse) :=
  if o.pingDue then
    match st.conn.client with
    | some _ =>
      if o.pingOk then mqttTickDrain o st queue
      else some ({ st with should_reconnect := true }, queue, [], [])
    | none => mqttTickDrain o st queue
  else mqttTickDrain o st queue

/-- One full iteration of the mqtt_task outer loop (main.rs lines
159-229): the reconnection stage runs Mqtt::connect when should_reconnect
is set; a failed connect logs and retries next iteration (continue), a
successful one clears should_reconnect and proceeds to ping and drain. -/
def mqttTick (o : TickOracle) (st : MqttTaskState) (queue : List MqttMessage) :
    Option (MqttTaskState × List MqttMessage ×
      List (MqttMessage × Bool) × List MqttResponse) :=
  if st.should_reconnect then
    match Mqtt.connect o.transportOk o.brokerOk st.conn with
    | (conn2, Except.ok _) =>
      mqttTickPing o { st with conn := conn2, should_reconnect := false } queue
    | (conn2, Except.error _) => some ({ st with conn := conn2 }, queue, [], [])
  else mqttTickPing o st queue

/-- Runs mqtt_task for a list of iterations; each list entry carries the
iteration oracle and the publish requests that arrive in the channel
during that iteration.  Requests left unread stay pending, the wire
attempts and outcomes of all iterations are concatenated in order, and a
panic in any iteration aborts the whole run as none. -/
def mqttRun : List (TickOracle × List MqttMessage) → MqttTaskState →
    List MqttMessage →
    Option (MqttTaskState × List MqttMessage ×
      List (MqttMessage × Bool) × List MqttResponse)
  | [], st, pending => some (st, pending, [], [])
  | (o, incoming) :: rest, st, pending =>
    match mqttTick o st (pending ++ incoming) with
    | none => none
    | some (st2, q2, sent, outs) =>
      match mqttRun rest st2 q2 with
      | none => none
      | some (st3, q3, sent2, outs2) =>
        some (st3, q3, sent ++ sent2, outs ++ outs2)

/-- A first publish request, used in the retry scenario. -/
def msgA : MqttMessage := ⟨ValueType.temperature, 21⟩

/-- A second, distinct publish request queued after msgA. -/
def msgB : MqttMessage := ⟨ValueType.humidity, 60⟩

/-- An iteration whose transport accepts the connection but fails every
send. -/
def tickSendFail : TickOracle := ⟨true, true, false, true, true, fun _ => false⟩

/-- An iteration whose transport accepts the connection and every send. -/
def tickSendOk : TickOracle := ⟨true, true, false, true, true, fun _ => true⟩

/-- The client-presence invariant of mqtt_task: whenever should_reconnect
is cleared, a client object exists. -/
def MqttInv (st : MqttTaskState) : Prop :=
  st.should_reconnect = false → st.conn.client.isSome = true

section MqttTaskLemmas

theorem mqtt_connect_ok_client (transportOk brokerOk : Bool)
    (st : MqttConnState) (conn2 : MqttConnState)
    (h : Mqtt.connect transportOk brokerOk st = (conn2, Except.ok ())) :
    conn2.client = some () := by
  cases transportOk <;> cases brokerOk <;> simp [Mqtt.connect] at h
  rw [← h]

theorem mqttTickDrain_isSome (o : TickOracle) (st : MqttTaskState)
    (queue : List MqttMessage) (hclient : st.conn.client.isSome = true) :
    (mqttTickDrain o st queue).isSome = true := by
  unfold mqttTickDrain
  by_cases he : o.mqttEnabled = false
  · simp [he]
  · cases hl : st.cached.toList ++ queue with
    | nil => simp [he, hl]
    | cons m rest =>
      cases hcl : st.conn.client with
      | none => rw [hcl] at hclient; simp at hclient
      | some u => simp [he, hl, hcl]

theorem mqttTickDrain_conn (o : TickOracle) (st : MqttTaskState)
    (queue : List MqttMessage)
    (res : MqttTaskState × List MqttMessage ×
      List (MqttMessage × Bool) × List MqttResponse)
    (h : mqttTickDrain o st queue = some res) : res.1.conn = st.conn := by
  unfold mqttTickDrain at h
  split at h
  · rw [Option.some_inj] at h; subst h; rfl
  · split at h
    · rw [Option.some_inj] at h; subst h; rfl
    · split at h
      · exact absurd h (by simp)
      · rw [Option.some_inj] at h; subst h; rfl

theorem mqttTickPing_isSome (o : TickOracle) (st : MqttTaskState)
    (queue : List MqttMessage) (hclient : st.conn.client.isSome = true) :
    (mqttTickPing o st queue).isSome = true := by
  unfold mqttTickPing
  cases hcl : st.conn.client with
  | none => rw [hcl] at hclient; simp at hclient
  | some u =>
    by_cases hd : o.pingDue
    · by_cases hp : o.pingOk
      · simpa [hd, hcl, hp] using mqttTickDrain_isSome o st queue hclient
      · simp [hd, hcl, hp]
    · simpa [hd] using mqttTickDrain_isSome o st queue hclient

theorem mqttTickPing_inv (o : TickOracle) (st : MqttTaskState)
    (queue : List MqttMessage) (hclient : st.conn.client.isSome = true)
    (res : MqttTaskState × List MqttMessage ×
      List (MqttMessage × Bool) × List MqttResponse)
    (h : mqttTickPing o st queue = some res) : MqttInv res.1 := by
  unfold mqttTickPing at h
  split at h
  · split at h
    · split at h
      · intro _
        rw [mqttTickDrain_conn o st queue res h]
        exact hclient
      · rw [Option.some_inj] at h; subst h
        intro hfalse
        simp at hfalse
    · intro _
      rw [mqttTickDrain_conn o st queue res h]
      exact hclient
  · intro _
    rw [mqttTickDrain_conn o st queue res h]
    exact hclient

theorem mqttTick_isSome (o : TickOracle) (st : MqttTaskState)
    (queue : List MqttMessage) (hInv : MqttInv st) :
    (mqttTick o st queue).isSome = true := by
  unfold mqttTick
  by_cases hsr : st.should_reconnect
  · rw [if_pos hsr]
    cases hc : Mqtt.connect o.transportOk o.brokerOk st.conn with
    | mk conn2 r =>
      cases r with
      | ok u =>
        cases u
        have hcl : conn2.client = some () :=
          mqtt_connect_ok_client o.transportOk o.brokerOk st.conn conn2 hc
        simpa using mqttTickPing_isSome o
          { st with conn := conn2, should_reconnect := false } queue
          (by rw [hcl]; rfl)
      | error e => simp
  · rw [if_neg hsr]
    have hsr2 : st.should_reconnect = false := by simpa using hsr
    exact mqttTickPing_isSome o st queue (hInv hsr2)

theorem mqttTick_inv (o : TickOracle) (st : MqttTaskState)
    (queue : List MqttMessage) (hInv : MqttInv st)
    (res : MqttTaskState × List MqttMessage ×
      List (MqttMessage × Bool) × List MqttResponse)
    (h : mqttTick o st queue = some res) : MqttInv res.1 := by
  unfold mqttTick at h
  by_cases hsr : st.should_reconnect
  · rw [if_pos hsr] at h
    cases hc : Mqtt.connect o.transportOk o.brokerOk st.conn with
    | mk conn2 r =>
      rw [hc] at h
      cases r with
      | ok u =>
        cases u
        have hcl : conn2.client = some () :=
          mqtt_connect_ok_client o.transportOk o.brokerOk st.conn conn2 hc
        exact mqttTickPing_inv o
          { st with conn := conn2, should_reconnect := false } queue
          (by rw [hcl]; rfl) res h
      | error e =>
        simp only [] at h
        rw [Option.some_inj] at h; subst h
        intro hfalse
        simp [hsr] at hfalse
  · rw [if_neg hsr] at h
    have hsr2 : st.should_reconnect = false := by simpa using hsr
    exact mqttTickPing_inv o st queue (hInv hsr2) res h

theorem mqttRun_total (ticks : List (TickOracle × List MqttMessage)) :
    ∀ (st : MqttTaskState) (pending : List MqttMessage), MqttInv st →
      (mqttRun ticks st pending).isSome = true := by
  induction ticks with
  | nil => intro st pending _; simp [mqttRun]
  | cons tick rest ih =>
    intro st pending hInv
    obtain ⟨o, incoming⟩ := tick
    have hts := mqttTick_isSome o st (pending ++ incoming) hInv
    cases hres : mqttTick o st (pending ++ incoming) with
    | none => rw [hres] at hts; simp at hts
    | some res =>
      obtain ⟨st2, q2, sent, outs⟩ := res
      have hInv2 : MqttInv st2 :=
        mqttTick_inv o st (pending ++ incoming) hInv (st2, q2, sent, outs) hres
      have hrec := ih st2 q2 hInv2
      rw [mqttRun, hres]
      simp only []
      cases hr2 : mqttRun rest st2 q2 with
      | none => rw [hr2] at hrec; simp at hrec
      | some out =>
        obtain ⟨st3, q3, sent2, outs2⟩ := out
        simp

end MqttTaskLemmas

/-- Claim C3: on a send failure the drain loop emits at most one failure
outcome per failure episode (nothing when the suppression flag is already
set), caches the failed message, forces a reconnect and exits the loop
early leaving the rest of the queue unread; any single drain pass emits at
most one failure outcome; after a reconnect the cached message is the
first wire attempt, before any newer queued request; and in the concrete
two-iteration run where msgA fails once and the retry succeeds, the task
emits exactly one failure outcome and one success outcome for msgA and
sends the retry of msgA before the later-queued msgB. -/
theorem mqtt_drain_failure_spec :
    (∀ (sendOk : Nat → Bool) (k : Nat) (ase : Bool) (msg : MqttMessage)
        (rest : List MqttMessage), sendOk k = false →
        drainList sendOk k ase (msg :: rest) =
          ⟨some msg, true, rest, [(msg, false)],
            if ase then [] else [⟨false, msg.topic⟩], true⟩)
    ∧ (∀ (sendOk : Nat → Bool) (k : Nat) (ase : Bool)
        (msgs : List MqttMessage),
        ((drainList sendOk k ase msgs).outcomes.filter
          fun r => !r.status).length ≤ 1)
    ∧ (∀ (sendOk : Nat → Bool) (ase : Bool) (m : MqttMessage)
        (queue : List MqttMessage),
        (drainLoop sendOk ase (some m) queue).sent.head? = some (m, sendOk 0))
    ∧ (mqttRun [(tickSendFail, [msgA, msgB]), (tickSendOk, [])]
          mqttTaskInit []).map (fun r => (r.2.2.1, r.2.2.2)) =
        some ([(msgA, false), (msgA, true), (msgB, true)],
          [⟨false, ValueType.temperature⟩, ⟨true, ValueType.temperature⟩,
            ⟨true, ValueType.humidity⟩]) := by
  refine ⟨?_, ?_, ?_, by decide⟩
  · intro sendOk k ase msg rest h
    simp [drainList, h]
  · intro sendOk k ase msgs
    induction msgs generalizing k ase with
    | nil => simp [drainList]
    | cons msg rest ih =>
      by_cases h : sendOk k
      · simp only [drainList, h, if_pos]
        simpa using ih (k + 1) false
      · simp only [drainList, h]
        cases ase <;> simp
  · intro sendOk ase m queue
    by_cases h : sendOk 0
    · simp [drainLoop, drainList, h]
    · simp [drainLoop, drainList, h]

/-- Witness for C3: a second consecutive failure of the same message (the
suppression flag already set) emits no further failure outcome, still
caches the message and still forces the reconnect. -/
theorem mqtt_drain_failure_witness :
    drainList (fun _ => false) 0 true [msgA] =
      ⟨some msgA, true, [], [(msgA, false)], [], true⟩ := by
  have h := mqtt_drain_failure_spec.1 (fun _ => false) 0 true msgA [] rfl
  simpa using h

/-- Claim C10: the expect on mqtt.client inside the drain loop never
panics: starting from the task entry state (reconnect pending, no client),
every run of mqtt_task iterations, under every oracle and every arrival of
publish requests, completes without the modelled panic, because
should_reconnect is false only after a successful connect stored a client
and every failure path re-arms it. -/
theorem mqtt_task_no_client_panic
    (ticks : List (TickOracle × List MqttMessage)) :
    (mqttRun ticks mqttTaskInit []).isSome = true :=
  mqttRun_total ticks mqttTaskInit []
    (by intro h; simp [mqttTaskInit] at h)

end IIot
